import Mathlib

/-!
Verification of the row-to-image conversion pipeline of `app/processing/image.py`
(aiq-depth-frames-api): color-map LUT generation, row resampling, colorization
and PNG serialization, together with the orchestration in `process_row_to_png`.

Machine integers are modelled as `Nat`, raw float samples as `ℚ`.  The numpy
`linspace` computation is modelled exactly: for the concrete compiled-in color
stops every float64 intermediate either is a dyadic rational computed exactly or
truncates to the same byte as the exact rational value, so integer floor
arithmetic reproduces the table entry by entry.  The bodies of the two external
library calls (`PIL.Image.resize` and PIL's PNG writer) are not part of the
repository and are modelled from the specification, as noted on their
definitions.
-/

namespace DepthFrames

/-- An RGB color triple of byte values. -/
abbrev RGB := Nat × Nat × Nat

/-- `COLOR_STOPS` (image.py lines 23-29): the fixed compiled-in gradient anchors
dark blue → cyan → green → yellow → red. -/
def COLOR_STOPS : List (Nat × RGB) :=
  [(0, (0, 0, 128)), (64, (0, 128, 255)), (128, (0, 255, 128)),
   (192, (255, 255, 0)), (255, (255, 0, 0))]

/-- Entry `i` of `np.linspace(a, b, n + 1, dtype=np.uint8)` (image.py lines
63-68): the value `a + i * (b - a) / n` truncated to an integer (truncation
toward zero; every value here is nonnegative, so this is the floor), with the
final entry set to `b` exactly as numpy does.  For the concrete stops of
`COLOR_STOPS` the float64 evaluation truncates to the same byte as the exact
rational value at every index, so this integer form is exact. -/
def linspaceU8 (a b n i : Nat) : Nat :=
  if i = n then b
  else (((a : Int) * n + (i : Int) * ((b : Int) - (a : Int))).fdiv n).toNat

/-- One iteration of the interpolation loop of `generate_colormap_lut`
(image.py lines 54-68): write the interpolated colors for the inclusive index
range `[s.1, e.1]` of one adjacent pair of color stops into the table. -/
def writeSegment (lut : Array RGB) (s e : Nat × RGB) : Array RGB :=
  let numSteps := e.1 - s.1
  (List.range (numSteps + 1)).foldl
    (fun a i =>
      a.setD (s.1 + i)
        (linspaceU8 s.2.1 e.2.1 numSteps i,
         linspaceU8 s.2.2.1 e.2.2.1 numSteps i,
         linspaceU8 s.2.2.2 e.2.2.2 numSteps i)) lut

/-- `generate_colormap_lut` (image.py lines 32-71), parameterized by the stop
table it expands: starting from `np.zeros((256, 3))`, interpolate between each
adjacent pair of stops; a later segment rewrites the boundary entry shared with
its predecessor. -/
def buildLut (stops : List (Nat × RGB)) : Array RGB :=
  (stops.zip stops.tail).foldl (fun lut p => writeSegment lut p.1 p.2)
    (Array.mkArray 256 (0, 0, 0))

/-- `generate_colormap_lut()` as called at module load: expands `COLOR_STOPS`. -/
def generate_colormap_lut : Array RGB := buildLut COLOR_STOPS

/-- `COLORMAP_LUT` (image.py line 75): the table cached at module load time. -/
def COLORMAP_LUT : Array RGB := generate_colormap_lut

/-- Row `p` of `COLORMAP_LUT` (out-of-range reads never occur; default black). -/
def lutEntry (p : Nat) : RGB := COLORMAP_LUT.getD p (0, 0, 0)

/-- Channel `k` of an RGB triple (0 = red, 1 = green, 2 = blue). -/
def getChannel (c : RGB) (k : Nat) : Nat :=
  if k = 0 then c.1 else if k = 1 then c.2.1 else c.2.2

/-- `np.clip(v, 0, 255).astype(np.uint8)` applied to one sample (image.py
lines 200-201): saturate into [0, 255], then truncate the clipped nonnegative
value toward zero (the floor). -/
def clampU8 (v : ℚ) : Nat :=
  if v ≤ 0 then 0 else if 255 ≤ v then 255 else (⌊v⌋).toNat

/-- Modelled from the spec: the body of `PIL.Image.resize(..., LANCZOS)`
(called at image.py line 125) is external library code, absent from this
repository.  Per spec §4.2 the resampler treats the row as a 1-pixel-tall image
and computes each of the `targetWidth` output samples as a weighted combination
of the input samples under a windowed-sinc-class filter in floating precision;
the weight family is kept as a parameter standing for that filter.  Per §4.2
"Width 0 or negative target width is an input error": Pillow's resize raises
`ValueError("height and width must be > 0")` for such sizes, raised at the
per-row call site; with widths as `Nat`, zero is the one non-positive width. -/
def imageResize (weights : Nat → Nat → ℚ) (row : List ℚ) (targetWidth : Nat) :
    Except String (List ℚ) :=
  if targetWidth = 0 then .error "height and width must be > 0"
  else .ok ((List.range targetWidth).map
    (fun j => ∑ i in Finset.range row.length, weights j i * row.getD i 0))

/-- Modelled from the spec (§4.5 step 3, §9): after interpolation the samples
are re-quantized to 8 bits with saturating rounding, as PIL does when producing
the uint8 result image (round, then clip into [0, 255]). -/
def quantizeU8 (v : ℚ) : Nat := (min 255 (max 0 (round v))).toNat

/-- `resize_grayscale_row` (image.py lines 101-128): reshape the row to a
1-pixel-tall image, resize it to `(target_width, 1)` with the (modelled)
windowed filter, and flatten back to a 1-D uint8 sequence; an input error
raised inside the resize call propagates to the caller. -/
def resize_grayscale_row (weights : Nat → Nat → ℚ) (row : List Nat)
    (target_width : Nat) : Except String (List Nat) :=
  match imageResize weights (row.map (fun (v : Nat) => (v : ℚ))) target_width with
  | .error e => .error e
  | .ok resized => .ok (resized.map quantizeU8)

/-- `apply_colormap` (image.py lines 78-98): `COLORMAP_LUT[grayscale]`, numpy's
vectorized table lookup, one read per sample; an out-of-range index would raise
`IndexError`, modelled by `none`. -/
def apply_colormap : List Nat → Option (List RGB)
  | [] => some []
  | v :: rest =>
    match COLORMAP_LUT[v]?, apply_colormap rest with
    | some c, some cs => some (c :: cs)
    | _, _ => none

/-- The standard 8-byte PNG magic signature. -/
def pngSignature : List Nat := [137, 80, 78, 71, 13, 10, 26, 10]

/-- Modelled from the spec: `encode_to_png` (image.py lines 131-163) delegates
to PIL's PNG writer, external library code absent from this repository.  Per
spec §4.4/§6 it is a deterministic serialization of the 1-pixel-tall RGB
raster: the magic signature followed by a deterministic (injective, lossless)
encoding of the pixel data; the zlib compression layer is omitted as a
deterministic injective transform. -/
def encode_to_png (rgb : List RGB) : List Nat :=
  pngSignature ++ rgb.flatMap (fun c => [c.1, c.2.1, c.2.2])

/-- `process_row_to_png` (image.py lines 166-221): clamp the raw samples to
uint8, validate the length against `source_width` (raising `ValueError` with
expected and actual counts on mismatch), resample to `target_width` (an input
error raised by the resize call propagates uncaught, per-row), colorize
through the LUT, and encode; returns `(png_bytes, target_width, 1)`. -/
def process_row_to_png (weights : Nat → Nat → ℚ) (row_data : List ℚ)
    (source_width : Nat) (target_width : Nat) :
    Except String (List Nat × Nat × Nat) :=
  let grayscale := row_data.map clampU8
  if grayscale.length ≠ source_width then
    .error ("Expected " ++ toString source_width ++ " pixel values, got " ++
      toString grayscale.length)
  else
    match resize_grayscale_row weights grayscale target_width with
    | .error e => .error e
    | .ok resized =>
      match apply_colormap resized with
      | none => .error "IndexError"
      | some rgb => .ok (encode_to_png rgb, target_width, 1)

/-- The spec's words (§4.1) for a LUT entry, for comparison with `linspaceU8`
from the source: each channel is the linear interpolation between the two
stops' channel values, "computed as a rounded integer". -/
def roundInterp (a b n i : Nat) : Int :=
  round ((a : ℚ) + (i : ℚ) * (((b : ℚ) - (a : ℚ)) / (n : ℚ)))

/-- The spec's interpolation formula amended to the code's behavior: the
linear interpolation between the two stops' channel values, truncated (floored)
to an integer rather than rounded. -/
def floorInterp (a b n i : Nat) : Int :=
  ⌊(a : ℚ) + (i : ℚ) * (((b : ℚ) - (a : ℚ)) / (n : ℚ))⌋

/-- Color stop `j` of the compiled-in table (out-of-range never used). -/
def stopAt (j : Nat) : Nat × RGB := COLOR_STOPS.getD j (0, (0, 0, 0))

end DepthFrames

namespace DepthFrames

/-- The table contents after the first interpolation segment (stops 0 and 64) is written; computed value, verified against `writeSegment` below. -/
def lutStage1 : List RGB :=
  [(0, 0, 128), (0, 2, 129), (0, 4, 131), (0, 6, 133), (0, 8, 135), (0, 10, 137),
   (0, 12, 139), (0, 14, 141), (0, 16, 143), (0, 18, 145), (0, 20, 147), (0, 22, 149),
   (0, 24, 151), (0, 26, 153), (0, 28, 155), (0, 30, 157), (0, 32, 159), (0, 34, 161),
   (0, 36, 163), (0, 38, 165), (0, 40, 167), (0, 42, 169), (0, 44, 171), (0, 46, 173),
   (0, 48, 175), (0, 50, 177), (0, 52, 179), (0, 54, 181), (0, 56, 183), (0, 58, 185),
   (0, 60, 187), (0, 62, 189), (0, 64, 191), (0, 66, 193), (0, 68, 195), (0, 70, 197),
   (0, 72, 199), (0, 74, 201), (0, 76, 203), (0, 78, 205), (0, 80, 207), (0, 82, 209),
   (0, 84, 211), (0, 86, 213), (0, 88, 215), (0, 90, 217), (0, 92, 219), (0, 94, 221),
   (0, 96, 223), (0, 98, 225), (0, 100, 227), (0, 102, 229), (0, 104, 231), (0, 106, 233),
   (0, 108, 235), (0, 110, 237), (0, 112, 239), (0, 114, 241), (0, 116, 243), (0, 118, 245),
   (0, 120, 247), (0, 122, 249), (0, 124, 251), (0, 126, 253), (0, 128, 255), (0, 0, 0),
   (0, 0, 0), (0, 0, 0), (0, 0, 0), (0, 0, 0), (0, 0, 0), (0, 0, 0),
   (0, 0, 0), (0, 0, 0), (0, 0, 0), (0, 0, 0), (0, 0, 0), (0, 0, 0),
   (0, 0, 0), (0, 0, 0), (0, 0, 0), (0, 0, 0), (0, 0, 0), (0, 0, 0),
   (0, 0, 0), (0, 0, 0), (0, 0, 0), (0, 0, 0), (0, 0, 0), (0, 0, 0),
   (0, 0, 0), (0, 0, 0), (0, 0, 0), (0, 0, 0), (0, 0, 0), (0, 0, 0),
   (0, 0, 0), (0, 0, 0), (0, 0, 0), (0, 0, 0), (0, 0, 0), (0, 0, 0),
   (0, 0, 0), (0, 0, 0), (0, 0, 0), (0, 0, 0), (0, 0, 0), (0, 0, 0),
   (0, 0, 0), (0, 0, 0), (0, 0, 0), (0, 0, 0), (0, 0, 0), (0, 0, 0),
   (0, 0, 0), (0, 0, 0), (0, 0, 0), (0, 0, 0), (0, 0, 0), (0, 0, 0),
   (0, 0, 0), (0, 0, 0), (0, 0, 0), (0, 0, 0), (0, 0, 0), (0, 0, 0),
   (0, 0, 0), (0, 0, 0), (0, 0, 0), (0, 0, 0), (0, 0, 0), (0, 0, 0),
   (0, 0, 0), (0, 0, 0), (0, 0, 0), (0, 0, 0), (0, 0, 0), (0, 0, 0),
   (0, 0, 0), (0, 0, 0), (0, 0, 0), (0, 0, 0), (0, 0, 0), (0, 0, 0),
   (0, 0, 0), (0, 0, 0), (0, 0, 0), (0, 0, 0), (0, 0, 0), (0, 0, 0),
   (0, 0, 0), (0, 0, 0), (0, 0, 0), (0, 0, 0), (0, 0, 0), (0, 0, 0),
   (0, 0, 0), (0, 0, 0), (0, 0, 0), (0, 0, 0), (0, 0, 0), (0, 0, 0),
   (0, 0, 0), (0, 0, 0), (0, 0, 0), (0, 0, 0), (0, 0, 0), (0, 0, 0),
   (0, 0, 0), (0, 0, 0), (0, 0, 0), (0, 0, 0), (0, 0, 0), (0, 0, 0),
   (0, 0, 0), (0, 0, 0), (0, 0, 0), (0, 0, 0), (0, 0, 0), (0, 0, 0),
   (0, 0, 0), (0, 0, 0), (0, 0, 0), (0, 0, 0), (0, 0, 0), (0, 0, 0),
   (0, 0, 0), (0, 0, 0), (0, 0, 0), (0, 0, 0), (0, 0, 0), (0, 0, 0),
   (0, 0, 0), (0, 0, 0), (0, 0, 0), (0, 0, 0), (0, 0, 0), (0, 0, 0),
   (0, 0, 0), (0, 0, 0), (0, 0, 0), (0, 0, 0), (0, 0, 0), (0, 0, 0),
   (0, 0, 0), (0, 0, 0), (0, 0, 0), (0, 0, 0), (0, 0, 0), (0, 0, 0),
   (0, 0, 0), (0, 0, 0), (0, 0, 0), (0, 0, 0), (0, 0, 0), (0, 0, 0),
   (0, 0, 0), (0, 0, 0), (0, 0, 0), (0, 0, 0), (0, 0, 0), (0, 0, 0),
   (0, 0, 0), (0, 0, 0), (0, 0, 0), (0, 0, 0), (0, 0, 0), (0, 0, 0),
   (0, 0, 0), (0, 0, 0), (0, 0, 0), (0, 0, 0), (0, 0, 0), (0, 0, 0),
   (0, 0, 0), (0, 0, 0), (0, 0, 0), (0, 0, 0), (0, 0, 0), (0, 0, 0),
   (0, 0, 0), (0, 0, 0), (0, 0, 0), (0, 0, 0), (0, 0, 0), (0, 0, 0),
   (0, 0, 0), (0, 0, 0), (0, 0, 0), (0, 0, 0), (0, 0, 0), (0, 0, 0),
   (0, 0, 0), (0, 0, 0), (0, 0, 0), (0, 0, 0)]

/-- The table contents after the second segment (stops 64 and 128) is written. -/
def lutStage2 : List RGB :=
  [(0, 0, 128), (0, 2, 129), (0, 4, 131), (0, 6, 133), (0, 8, 135), (0, 10, 137),
   (0, 12, 139), (0, 14, 141), (0, 16, 143), (0, 18, 145), (0, 20, 147), (0, 22, 149),
   (0, 24, 151), (0, 26, 153), (0, 28, 155), (0, 30, 157), (0, 32, 159), (0, 34, 161),
   (0, 36, 163), (0, 38, 165), (0, 40, 167), (0, 42, 169), (0, 44, 171), (0, 46, 173),
   (0, 48, 175), (0, 50, 177), (0, 52, 179), (0, 54, 181), (0, 56, 183), (0, 58, 185),
   (0, 60, 187), (0, 62, 189), (0, 64, 191), (0, 66, 193), (0, 68, 195), (0, 70, 197),
   (0, 72, 199), (0, 74, 201), (0, 76, 203), (0, 78, 205), (0, 80, 207), (0, 82, 209),
   (0, 84, 211), (0, 86, 213), (0, 88, 215), (0, 90, 217), (0, 92, 219), (0, 94, 221),
   (0, 96, 223), (0, 98, 225), (0, 100, 227), (0, 102, 229), (0, 104, 231), (0, 106, 233),
   (0, 108, 235), (0, 110, 237), (0, 112, 239), (0, 114, 241), (0, 116, 243), (0, 118, 245),
   (0, 120, 247), (0, 122, 249), (0, 124, 251), (0, 126, 253), (0, 128, 255), (0, 129, 253),
   (0, 131, 251), (0, 133, 249), (0, 135, 247), (0, 137, 245), (0, 139, 243), (0, 141, 241),
   (0, 143, 239), (0, 145, 237), (0, 147, 235), (0, 149, 233), (0, 151, 231), (0, 153, 229),
   (0, 155, 227), (0, 157, 225), (0, 159, 223), (0, 161, 221), (0, 163, 219), (0, 165, 217),
   (0, 167, 215), (0, 169, 213), (0, 171, 211), (0, 173, 209), (0, 175, 207), (0, 177, 205),
   (0, 179, 203), (0, 181, 201), (0, 183, 199), (0, 185, 197), (0, 187, 195), (0, 189, 193),
   (0, 191, 191), (0, 193, 189), (0, 195, 187), (0, 197, 185), (0, 199, 183), (0, 201, 181),
   (0, 203, 179), (0, 205, 177), (0, 207, 175), (0, 209, 173), (0, 211, 171), (0, 213, 169),
   (0, 215, 167), (0, 217, 165), (0, 219, 163), (0, 221, 161), (0, 223, 159), (0, 225, 157),
   (0, 227, 155), (0, 229, 153), (0, 231, 151), (0, 233, 149), (0, 235, 147), (0, 237, 145),
   (0, 239, 143), (0, 241, 141), (0, 243, 139), (0, 245, 137), (0, 247, 135), (0, 249, 133),
   (0, 251, 131), (0, 253, 129), (0, 255, 128), (0, 0, 0), (0, 0, 0), (0, 0, 0),
   (0, 0, 0), (0, 0, 0), (0, 0, 0), (0, 0, 0), (0, 0, 0), (0, 0, 0),
   (0, 0, 0), (0, 0, 0), (0, 0, 0), (0, 0, 0), (0, 0, 0), (0, 0, 0),
   (0, 0, 0), (0, 0, 0), (0, 0, 0), (0, 0, 0), (0, 0, 0), (0, 0, 0),
   (0, 0, 0), (0, 0, 0), (0, 0, 0), (0, 0, 0), (0, 0, 0), (0, 0, 0),
   (0, 0, 0), (0, 0, 0), (0, 0, 0), (0, 0, 0), (0, 0, 0), (0, 0, 0),
   (0, 0, 0), (0, 0, 0), (0, 0, 0), (0, 0, 0), (0, 0, 0), (0, 0, 0),
   (0, 0, 0), (0, 0, 0), (0, 0, 0), (0, 0, 0), (0, 0, 0), (0, 0, 0),
   (0, 0, 0), (0, 0, 0), (0, 0, 0), (0, 0, 0), (0, 0, 0), (0, 0, 0),
   (0, 0, 0), (0, 0, 0), (0, 0, 0), (0, 0, 0), (0, 0, 0), (0, 0, 0),
   (0, 0, 0), (0, 0, 0), (0, 0, 0), (0, 0, 0), (0, 0, 0), (0, 0, 0),
   (0, 0, 0), (0, 0, 0), (0, 0, 0), (0, 0, 0), (0, 0, 0), (0, 0, 0),
   (0, 0, 0), (0, 0, 0), (0, 0, 0), (0, 0, 0), (0, 0, 0), (0, 0, 0),
   (0, 0, 0), (0, 0, 0), (0, 0, 0), (0, 0, 0), (0, 0, 0), (0, 0, 0),
   (0, 0, 0), (0, 0, 0), (0, 0, 0), (0, 0, 0), (0, 0, 0), (0, 0, 0),
   (0, 0, 0), (0, 0, 0), (0, 0, 0), (0, 0, 0), (0, 0, 0), (0, 0, 0),
   (0, 0, 0), (0, 0, 0), (0, 0, 0), (0, 0, 0), (0, 0, 0), (0, 0, 0),
   (0, 0, 0), (0, 0, 0), (0, 0, 0), (0, 0, 0), (0, 0, 0), (0, 0, 0),
   (0, 0, 0), (0, 0, 0), (0, 0, 0), (0, 0, 0), (0, 0, 0), (0, 0, 0),
   (0, 0, 0), (0, 0, 0), (0, 0, 0), (0, 0, 0), (0, 0, 0), (0, 0, 0),
   (0, 0, 0), (0, 0, 0), (0, 0, 0), (0, 0, 0), (0, 0, 0), (0, 0, 0),
   (0, 0, 0), (0, 0, 0), (0, 0, 0), (0, 0, 0)]

/-- The table contents after the third segment (stops 128 and 192) is written. -/
def lutStage3 : List RGB :=
  [(0, 0, 128), (0, 2, 129), (0, 4, 131), (0, 6, 133), (0, 8, 135), (0, 10, 137),
   (0, 12, 139), (0, 14, 141), (0, 16, 143), (0, 18, 145), (0, 20, 147), (0, 22, 149),
   (0, 24, 151), (0, 26, 153), (0, 28, 155), (0, 30, 157), (0, 32, 159), (0, 34, 161),
   (0, 36, 163), (0, 38, 165), (0, 40, 167), (0, 42, 169), (0, 44, 171), (0, 46, 173),
   (0, 48, 175), (0, 50, 177), (0, 52, 179), (0, 54, 181), (0, 56, 183), (0, 58, 185),
   (0, 60, 187), (0, 62, 189), (0, 64, 191), (0, 66, 193), (0, 68, 195), (0, 70, 197),
   (0, 72, 199), (0, 74, 201), (0, 76, 203), (0, 78, 205), (0, 80, 207), (0, 82, 209),
   (0, 84, 211), (0, 86, 213), (0, 88, 215), (0, 90, 217), (0, 92, 219), (0, 94, 221),
   (0, 96, 223), (0, 98, 225), (0, 100, 227), (0, 102, 229), (0, 104, 231), (0, 106, 233),
   (0, 108, 235), (0, 110, 237), (0, 112, 239), (0, 114, 241), (0, 116, 243), (0, 118, 245),
   (0, 120, 247), (0, 122, 249), (0, 124, 251), (0, 126, 253), (0, 128, 255), (0, 129, 253),
   (0, 131, 251), (0, 133, 249), (0, 135, 247), (0, 137, 245), (0, 139, 243), (0, 141, 241),
   (0, 143, 239), (0, 145, 237), (0, 147, 235), (0, 149, 233), (0, 151, 231), (0, 153, 229),
   (0, 155, 227), (0, 157, 225), (0, 159, 223), (0, 161, 221), (0, 163, 219), (0, 165, 217),
   (0, 167, 215), (0, 169, 213), (0, 171, 211), (0, 173, 209), (0, 175, 207), (0, 177, 205),
   (0, 179, 203), (0, 181, 201), (0, 183, 199), (0, 185, 197), (0, 187, 195), (0, 189, 193),
   (0, 191, 191), (0, 193, 189), (0, 195, 187), (0, 197, 185), (0, 199, 183), (0, 201, 181),
   (0, 203, 179), (0, 205, 177), (0, 207, 175), (0, 209, 173), (0, 211, 171), (0, 213, 169),
   (0, 215, 167), (0, 217, 165), (0, 219, 163), (0, 221, 161), (0, 223, 159), (0, 225, 157),
   (0, 227, 155), (0, 229, 153), (0, 231, 151), (0, 233, 149), (0, 235, 147), (0, 237, 145),
   (0, 239, 143), (0, 241, 141), (0, 243, 139), (0, 245, 137), (0, 247, 135), (0, 249, 133),
   (0, 251, 131), (0, 253, 129), (0, 255, 128), (3, 255, 126), (7, 255, 124), (11, 255, 122),
   (15, 255, 120), (19, 255, 118), (23, 255, 116), (27, 255, 114), (31, 255, 112), (35, 255, 110),
   (39, 255, 108), (43, 255, 106), (47, 255, 104), (51, 255, 102), (55, 255, 100), (59, 255, 98),
   (63, 255, 96), (67, 255, 94), (71, 255, 92), (75, 255, 90), (79, 255, 88), (83, 255, 86),
   (87, 255, 84), (91, 255, 82), (95, 255, 80), (99, 255, 78), (103, 255, 76), (107, 255, 74),
   (111, 255, 72), (115, 255, 70), (119, 255, 68), (123, 255, 66), (127, 255, 64), (131, 255, 62),
   (135, 255, 60), (139, 255, 58), (143, 255, 56), (147, 255, 54), (151, 255, 52), (155, 255, 50),
   (159, 255, 48), (163, 255, 46), (167, 255, 44), (171, 255, 42), (175, 255, 40), (179, 255, 38),
   (183, 255, 36), (187, 255, 34), (191, 255, 32), (195, 255, 30), (199, 255, 28), (203, 255, 26),
   (207, 255, 24), (211, 255, 22), (215, 255, 20), (219, 255, 18), (223, 255, 16), (227, 255, 14),
   (231, 255, 12), (235, 255, 10), (239, 255, 8), (243, 255, 6), (247, 255, 4), (251, 255, 2),
   (255, 255, 0), (0, 0, 0), (0, 0, 0), (0, 0, 0), (0, 0, 0), (0, 0, 0),
   (0, 0, 0), (0, 0, 0), (0, 0, 0), (0, 0, 0), (0, 0, 0), (0, 0, 0),
   (0, 0, 0), (0, 0, 0), (0, 0, 0), (0, 0, 0), (0, 0, 0), (0, 0, 0),
   (0, 0, 0), (0, 0, 0), (0, 0, 0), (0, 0, 0), (0, 0, 0), (0, 0, 0),
   (0, 0, 0), (0, 0, 0), (0, 0, 0), (0, 0, 0), (0, 0, 0), (0, 0, 0),
   (0, 0, 0), (0, 0, 0), (0, 0, 0), (0, 0, 0), (0, 0, 0), (0, 0, 0),
   (0, 0, 0), (0, 0, 0), (0, 0, 0), (0, 0, 0), (0, 0, 0), (0, 0, 0),
   (0, 0, 0), (0, 0, 0), (0, 0, 0), (0, 0, 0), (0, 0, 0), (0, 0, 0),
   (0, 0, 0), (0, 0, 0), (0, 0, 0), (0, 0, 0), (0, 0, 0), (0, 0, 0),
   (0, 0, 0), (0, 0, 0), (0, 0, 0), (0, 0, 0), (0, 0, 0), (0, 0, 0),
   (0, 0, 0), (0, 0, 0), (0, 0, 0), (0, 0, 0)]

/-- The full 256-entry table: contents of `COLORMAP_LUT`, verified below. -/
def lutLiteral : List RGB :=
  [(0, 0, 128), (0, 2, 129), (0, 4, 131), (0, 6, 133), (0, 8, 135), (0, 10, 137),
   (0, 12, 139), (0, 14, 141), (0, 16, 143), (0, 18, 145), (0, 20, 147), (0, 22, 149),
   (0, 24, 151), (0, 26, 153), (0, 28, 155), (0, 30, 157), (0, 32, 159), (0, 34, 161),
   (0, 36, 163), (0, 38, 165), (0, 40, 167), (0, 42, 169), (0, 44, 171), (0, 46, 173),
   (0, 48, 175), (0, 50, 177), (0, 52, 179), (0, 54, 181), (0, 56, 183), (0, 58, 185),
   (0, 60, 187), (0, 62, 189), (0, 64, 191), (0, 66, 193), (0, 68, 195), (0, 70, 197),
   (0, 72, 199), (0, 74, 201), (0, 76, 203), (0, 78, 205), (0, 80, 207), (0, 82, 209),
   (0, 84, 211), (0, 86, 213), (0, 88, 215), (0, 90, 217), (0, 92, 219), (0, 94, 221),
   (0, 96, 223), (0, 98, 225), (0, 100, 227), (0, 102, 229), (0, 104, 231), (0, 106, 233),
   (0, 108, 235), (0, 110, 237), (0, 112, 239), (0, 114, 241), (0, 116, 243), (0, 118, 245),
   (0, 120, 247), (0, 122, 249), (0, 124, 251), (0, 126, 253), (0, 128, 255), (0, 129, 253),
   (0, 131, 251), (0, 133, 249), (0, 135, 247), (0, 137, 245), (0, 139, 243), (0, 141, 241),
   (0, 143, 239), (0, 145, 237), (0, 147, 235), (0, 149, 233), (0, 151, 231), (0, 153, 229),
   (0, 155, 227), (0, 157, 225), (0, 159, 223), (0, 161, 221), (0, 163, 219), (0, 165, 217),
   (0, 167, 215), (0, 169, 213), (0, 171, 211), (0, 173, 209), (0, 175, 207), (0, 177, 205),
   (0, 179, 203), (0, 181, 201), (0, 183, 199), (0, 185, 197), (0, 187, 195), (0, 189, 193),
   (0, 191, 191), (0, 193, 189), (0, 195, 187), (0, 197, 185), (0, 199, 183), (0, 201, 181),
   (0, 203, 179), (0, 205, 177), (0, 207, 175), (0, 209, 173), (0, 211, 171), (0, 213, 169),
   (0, 215, 167), (0, 217, 165), (0, 219, 163), (0, 221, 161), (0, 223, 159), (0, 225, 157),
   (0, 227, 155), (0, 229, 153), (0, 231, 151), (0, 233, 149), (0, 235, 147), (0, 237, 145),
   (0, 239, 143), (0, 241, 141), (0, 243, 139), (0, 245, 137), (0, 247, 135), (0, 249, 133),
   (0, 251, 131), (0, 253, 129), (0, 255, 128), (3, 255, 126), (7, 255, 124), (11, 255, 122),
   (15, 255, 120), (19, 255, 118), (23, 255, 116), (27, 255, 114), (31, 255, 112), (35, 255, 110),
   (39, 255, 108), (43, 255, 106), (47, 255, 104), (51, 255, 102), (55, 255, 100), (59, 255, 98),
   (63, 255, 96), (67, 255, 94), (71, 255, 92), (75, 255, 90), (79, 255, 88), (83, 255, 86),
   (87, 255, 84), (91, 255, 82), (95, 255, 80), (99, 255, 78), (103, 255, 76), (107, 255, 74),
   (111, 255, 72), (115, 255, 70), (119, 255, 68), (123, 255, 66), (127, 255, 64), (131, 255, 62),
   (135, 255, 60), (139, 255, 58), (143, 255, 56), (147, 255, 54), (151, 255, 52), (155, 255, 50),
   (159, 255, 48), (163, 255, 46), (167, 255, 44), (171, 255, 42), (175, 255, 40), (179, 255, 38),
   (183, 255, 36), (187, 255, 34), (191, 255, 32), (195, 255, 30), (199, 255, 28), (203, 255, 26),
   (207, 255, 24), (211, 255, 22), (215, 255, 20), (219, 255, 18), (223, 255, 16), (227, 255, 14),
   (231, 255, 12), (235, 255, 10), (239, 255, 8), (243, 255, 6), (247, 255, 4), (251, 255, 2),
   (255, 255, 0), (255, 250, 0), (255, 246, 0), (255, 242, 0), (255, 238, 0), (255, 234, 0),
   (255, 230, 0), (255, 226, 0), (255, 222, 0), (255, 218, 0), (255, 214, 0), (255, 210, 0),
   (255, 206, 0), (255, 202, 0), (255, 198, 0), (255, 194, 0), (255, 190, 0), (255, 186, 0),
   (255, 182, 0), (255, 178, 0), (255, 174, 0), (255, 170, 0), (255, 165, 0), (255, 161, 0),
   (255, 157, 0), (255, 153, 0), (255, 149, 0), (255, 145, 0), (255, 141, 0), (255, 137, 0),
   (255, 133, 0), (255, 129, 0), (255, 125, 0), (255, 121, 0), (255, 117, 0), (255, 113, 0),
   (255, 109, 0), (255, 105, 0), (255, 101, 0), (255, 97, 0), (255, 93, 0), (255, 89, 0),
   (255, 85, 0), (255, 80, 0), (255, 76, 0), (255, 72, 0), (255, 68, 0), (255, 64, 0),
   (255, 60, 0), (255, 56, 0), (255, 52, 0), (255, 48, 0), (255, 44, 0), (255, 40, 0),
   (255, 36, 0), (255, 32, 0), (255, 28, 0), (255, 24, 0), (255, 20, 0), (255, 16, 0),
   (255, 12, 0), (255, 8, 0), (255, 4, 0), (255, 0, 0)]


set_option maxRecDepth 400000 in
/-- Writing the first segment into the zero-initialized table yields `lutStage1`. -/
theorem writeSegment_one :
    writeSegment (Array.mk (List.replicate 256 (0, 0, 0))) (0, (0, 0, 128)) (64, (0, 128, 255)) =
      Array.mk lutStage1 := by
  apply Array.ext'
  decide

set_option maxRecDepth 400000 in
/-- Writing the second segment on top of `lutStage1` yields `lutStage2`. -/
theorem writeSegment_two :
    writeSegment (Array.mk lutStage1) (64, (0, 128, 255)) (128, (0, 255, 128)) =
      Array.mk lutStage2 := by
  apply Array.ext'
  decide

set_option maxRecDepth 400000 in
/-- Writing the third segment on top of `lutStage2` yields `lutStage3`. -/
theorem writeSegment_three :
    writeSegment (Array.mk lutStage2) (128, (0, 255, 128)) (192, (255, 255, 0)) =
      Array.mk lutStage3 := by
  apply Array.ext'
  decide

set_option maxRecDepth 400000 in
/-- Writing the last segment on top of `lutStage3` yields the full table. -/
theorem writeSegment_four :
    writeSegment (Array.mk lutStage3) (192, (255, 255, 0)) (255, (255, 0, 0)) =
      Array.mk lutLiteral := by
  apply Array.ext'
  decide

/-- The cached colormap table is exactly the 256-entry literal `lutLiteral`. -/
theorem colormapLUT_eq : COLORMAP_LUT = Array.mk lutLiteral := by
  have h : COLORMAP_LUT =
      writeSegment (writeSegment (writeSegment (writeSegment
        (Array.mk (List.replicate 256 (0, 0, 0)))
        (0, (0, 0, 128)) (64, (0, 128, 255)))
        (64, (0, 128, 255)) (128, (0, 255, 128)))
        (128, (0, 255, 128)) (192, (255, 255, 0)))
        (192, (255, 255, 0)) (255, (255, 0, 0)) := by
    simp only [COLORMAP_LUT, generate_colormap_lut, buildLut, COLOR_STOPS,
      List.tail_cons, List.zip_cons_cons, List.zip_nil_right, List.foldl_cons,
      List.foldl_nil, Array.mkArray]
  rw [h, writeSegment_one, writeSegment_two, writeSegment_three, writeSegment_four]

end DepthFrames

namespace DepthFrames

set_option maxRecDepth 4000 in
/-- The colormap table has one row per 8-bit intensity. -/
theorem colormapLUT_size : COLORMAP_LUT.size = 256 := by
  rw [colormapLUT_eq]
  decide

/-- In-bounds reads of the cached table succeed and agree with `lutEntry`. -/
theorem colormapLUT_read (v : Nat) (h : v < 256) :
    COLORMAP_LUT[v]? = some (lutEntry v) := by
  have hs : v < COLORMAP_LUT.size := by rw [colormapLUT_size]; exact h
  unfold lutEntry Array.getD
  rw [dif_pos hs, Array.getElem?_eq_getElem hs]
  rfl

set_option maxRecDepth 100000 in
/-- The colorizer succeeds on every row of in-range intensities, mapping each
sample through the table. -/
theorem apply_colormap_eq_some :
    ∀ g : List Nat, (∀ v ∈ g, v < 256) →
      apply_colormap g = some (g.map lutEntry) := by
  intro g
  induction g with
  | nil => intro _; rfl
  | cons v rest ih =>
    intro hg
    have hv : v < 256 := hg v (List.mem_cons_self ..)
    have hrest := ih (fun x hx => hg x (List.mem_cons_of_mem _ hx))
    rw [apply_colormap, colormapLUT_read v hv, hrest]
    rfl

/-- Quantized samples are bytes. -/
theorem quantizeU8_le (v : ℚ) : quantizeU8 v ≤ 255 := by
  have h : min 255 (max 0 (round v)) ≤ (255 : ℤ) := min_le_left _ _
  exact Int.toNat_le.mpr h

/-- When the modelled resize call succeeds, `resize_grayscale_row` returns its
output re-quantized to bytes. -/
theorem resize_grayscale_row_eq_ok (w : Nat → Nat → ℚ) (row : List Nat)
    (tw : Nat) (ys : List ℚ)
    (h : imageResize w (row.map (fun (v : Nat) => (v : ℚ))) tw = .ok ys) :
    resize_grayscale_row w row tw = .ok (ys.map quantizeU8) := by
  rw [resize_grayscale_row, h]

/-- For every positive target width the resampler succeeds, one quantized
weighted sample per output position. -/
theorem resize_grayscale_row_pos (w : Nat → Nat → ℚ) (row : List Nat)
    (tw : Nat) (htw : tw ≠ 0) :
    resize_grayscale_row w row tw = .ok (((List.range tw).map
      (fun j => ∑ i in Finset.range (row.map (fun (v : Nat) => (v : ℚ))).length,
        w j i * (row.map (fun (v : Nat) => (v : ℚ))).getD i 0)).map
          quantizeU8) :=
  resize_grayscale_row_eq_ok w row tw _ (by rw [imageResize, if_neg htw])

/-- Every sample produced by a successful resample is a byte. -/
theorem resize_grayscale_row_le (w : Nat → Nat → ℚ) (row : List Nat)
    (tw : Nat) (out : List Nat)
    (h : resize_grayscale_row w row tw = .ok out) : ∀ x ∈ out, x ≤ 255 := by
  rcases Nat.eq_zero_or_pos tw with rfl | hpos
  · rw [show resize_grayscale_row w row 0 =
      .error "height and width must be > 0" from rfl] at h
    exact Except.noConfusion h
  · rw [resize_grayscale_row_pos w row tw (Nat.pos_iff_ne_zero.mp hpos)] at h
    injection h with h2
    subst h2
    intro x hx
    rcases List.mem_map.mp hx with ⟨y, _, rfl⟩
    exact quantizeU8_le y

/-- Strictly increasing adjacent steps lift to arbitrary index pairs. -/
theorem lift_lt (f : Nat → Nat) (n : Nat) (h : ∀ i, i < n → f i < f (i + 1)) :
    ∀ d1 d2, d1 < d2 → d2 ≤ n → f d1 < f d2 := by
  intro d1 d2
  induction d2 with
  | zero => intro h12 _; exact absurd h12 (Nat.not_lt_zero d1)
  | succ m ih =>
    intro h12 h2n
    rcases Nat.lt_succ_iff_lt_or_eq.mp h12 with hlt | heq
    · exact Nat.lt_trans (ih hlt (by omega)) (h m (by omega))
    · subst heq
      exact h d1 (by omega)

/-- Strictly decreasing adjacent steps lift to arbitrary index pairs. -/
theorem lift_gt (f : Nat → Nat) (n : Nat) (h : ∀ i, i < n → f (i + 1) < f i) :
    ∀ d1 d2, d1 < d2 → d2 ≤ n → f d2 < f d1 := by
  intro d1 d2
  induction d2 with
  | zero => intro h12 _; exact absurd h12 (Nat.not_lt_zero d1)
  | succ m ih =>
    intro h12 h2n
    rcases Nat.lt_succ_iff_lt_or_eq.mp h12 with hlt | heq
    · exact Nat.lt_trans (h m (by omega)) (ih hlt (by omega))
    · subst heq
      exact h d1 (by omega)

/-- Equal adjacent steps lift to equality with the left endpoint. -/
theorem lift_eq (f : Nat → Nat) (n : Nat) (h : ∀ i, i < n → f i = f (i + 1)) :
    ∀ d, d ≤ n → f d = f 0 := by
  intro d
  induction d with
  | zero => intro _; rfl
  | succ m ih => intro hm; rw [← h m (by omega), ih (by omega)]

/-- Nonstrict version of `lift_lt`. -/
theorem lift_le (f : Nat → Nat) (n : Nat) (h : ∀ i, i < n → f i < f (i + 1)) :
    ∀ d1 d2, d1 ≤ d2 → d2 ≤ n → f d1 ≤ f d2 := by
  intro d1 d2 h12 h2n
  rcases Nat.lt_or_ge d1 d2 with hlt | hge
  · exact Nat.le_of_lt (lift_lt f n h d1 d2 hlt h2n)
  · have hd : d1 = d2 := Nat.le_antisymm h12 hge
    subst hd
    exact Nat.le_refl _

/-- Nonstrict version of `lift_gt`. -/
theorem lift_ge (f : Nat → Nat) (n : Nat) (h : ∀ i, i < n → f (i + 1) < f i) :
    ∀ d1 d2, d1 ≤ d2 → d2 ≤ n → f d2 ≤ f d1 := by
  intro d1 d2 h12 h2n
  rcases Nat.lt_or_ge d1 d2 with hlt | hge
  · exact Nat.le_of_lt (lift_gt f n h d1 d2 hlt h2n)
  · have hd : d1 = d2 := Nat.le_antisymm h12 hge
    subst hd
    exact Nat.le_refl _

end DepthFrames

namespace DepthFrames

/-- `floorInterp` as exact integer division, for positive step counts. -/
theorem floorInterp_eq_div (a b n i : Nat) (hn : 0 < n) :
    floorInterp a b n i = ((a : ℤ) * n + (i : ℤ) * ((b : ℤ) - a)) / (n : ℤ) := by
  unfold floorInterp
  have hq : ((n : ℕ) : ℚ) ≠ 0 := by
    exact_mod_cast Nat.pos_iff_ne_zero.mp hn
  have hval : (a : ℚ) + (i : ℚ) * (((b : ℚ) - (a : ℚ)) / ((n : ℕ) : ℚ)) =
      (((a : ℤ) * n + (i : ℤ) * ((b : ℤ) - a) : ℤ) : ℚ) / ((n : ℕ) : ℚ) := by
    field_simp
  rw [hval, Rat.floor_intCast_div_natCast]

/-- Clamping a nonpositive sample saturates to 0. -/
theorem clampU8_of_nonpos {v : ℚ} (h : v ≤ 0) : clampU8 v = 0 := by
  rw [clampU8, if_pos h]

/-- Clamping a sample at or above 255 saturates to 255. -/
theorem clampU8_of_ge {v : ℚ} (h : 255 ≤ v) : clampU8 v = 255 := by
  rw [clampU8, if_neg (by linarith), if_pos h]

/-- Clamped samples are bytes. -/
theorem clampU8_le (v : ℚ) : clampU8 v ≤ 255 := by
  rw [clampU8]
  split_ifs with h1 h2
  · exact Nat.zero_le 255
  · exact Nat.le_refl 255
  · have hf : ⌊v⌋ ≤ 255 := le_of_lt (Int.floor_lt.mpr (by push_cast; linarith))
    exact Int.toNat_le.mpr hf

/-- An in-range sample passes through the clamp unchanged (truncation of an
integral value is that value). -/
theorem clampU8_natCast (x : Nat) (hx : x ≤ 255) : clampU8 (x : ℚ) = x := by
  rcases Nat.eq_zero_or_pos x with rfl | hpos
  · rw [clampU8]
    norm_num
  · rcases eq_or_lt_of_le hx with rfl | hlt
    · rw [clampU8, if_neg (by push_cast; norm_num), if_pos (by push_cast; norm_num)]
    · rw [clampU8,
        if_neg (not_le.mpr (by exact_mod_cast hpos : (0 : ℚ) < (x : ℚ))),
        if_neg (not_le.mpr (by exact_mod_cast hlt : (x : ℚ) < 255)),
        Int.floor_natCast, Int.toNat_natCast]

/-- An in-range integral sample passes through re-quantization unchanged. -/
theorem quantizeU8_natCast (x : Nat) (hx : x ≤ 255) : quantizeU8 (x : ℚ) = x := by
  rw [quantizeU8, round_natCast,
    max_eq_right (Int.natCast_nonneg x),
    min_eq_right (by exact_mod_cast hx), Int.toNat_natCast]

/-- The modelled resampler maps a constant row to a constant row whenever the
target width is positive and its filter weights are normalized (each output
sample is an affine combination of the input samples). -/
theorem imageResize_const (w : Nat → Nat → ℚ) (tw m : Nat) (c : ℚ)
    (htw : tw ≠ 0) (hw : ∀ j, ∑ i in Finset.range m, w j i = 1) :
    imageResize w (List.replicate m c) tw = .ok (List.replicate tw c) := by
  rw [imageResize, if_neg htw]
  congr 1
  rw [List.length_replicate]
  have hsum : ∀ j ∈ List.range tw,
      (∑ i in Finset.range m, w j i * (List.replicate m c).getD i 0) = c := by
    intro j _
    have hterm : ∀ i ∈ Finset.range m,
        w j i * (List.replicate m c).getD i 0 = w j i * c := by
      intro i hi
      rw [List.getD_eq_getElem?_getD, List.getElem?_replicate,
        if_pos (Finset.mem_range.mp hi)]
      rfl
    rw [Finset.sum_congr rfl hterm, ← Finset.sum_mul, hw j, one_mul]
  rw [List.map_congr_left hsum, List.map_const']
  simp

end DepthFrames

namespace DepthFrames

set_option maxRecDepth 4000 in
/-- Boundary entry: intensity 0 is the first stop's color (dark blue). -/
theorem lutEntry_zero : lutEntry 0 = (0, 0, 128) := by
  rw [lutEntry, colormapLUT_eq]
  decide

set_option maxRecDepth 4000 in
/-- Entry 64 is the second stop's color (cyan). -/
theorem lutEntry_64 : lutEntry 64 = (0, 128, 255) := by
  rw [lutEntry, colormapLUT_eq]
  decide

set_option maxRecDepth 4000 in
/-- Entry 128 is the third stop's color (green). -/
theorem lutEntry_128 : lutEntry 128 = (0, 255, 128) := by
  rw [lutEntry, colormapLUT_eq]
  decide

set_option maxRecDepth 4000 in
/-- Entry 192 is the fourth stop's color (yellow). -/
theorem lutEntry_192 : lutEntry 192 = (255, 255, 0) := by
  rw [lutEntry, colormapLUT_eq]
  decide

set_option maxRecDepth 4000 in
/-- Boundary entry: intensity 255 is the last stop's color (red). -/
theorem lutEntry_255 : lutEntry 255 = (255, 0, 0) := by
  rw [lutEntry, colormapLUT_eq]
  decide

/-- Behavior of the table across one interpolation segment, derived from its
adjacent-step behavior and its two endpoint entries: each channel follows the
direction of its endpoints (strictly when they differ, constant when they are
equal) and never leaves the interval they span. -/
theorem segmentBehavior (base n : Nat) (c0 c1 : RGB)
    (h0 : lutEntry base = c0) (hn : lutEntry (base + n) = c1)
    (hstep : ∀ k, k < 3 → ∀ i, i < n →
      (getChannel c0 k < getChannel c1 k →
        getChannel (lutEntry (base + i)) k <
          getChannel (lutEntry (base + (i + 1))) k) ∧
      (getChannel c1 k < getChannel c0 k →
        getChannel (lutEntry (base + (i + 1))) k <
          getChannel (lutEntry (base + i)) k) ∧
      (getChannel c0 k = getChannel c1 k →
        getChannel (lutEntry (base + i)) k =
          getChannel (lutEntry (base + (i + 1))) k)) :
    ∀ k, k < 3 → ∀ d1 d2, d1 < d2 → d2 ≤ n →
      ((getChannel c0 k < getChannel c1 k →
          getChannel (lutEntry (base + d1)) k <
            getChannel (lutEntry (base + d2)) k) ∧
        (getChannel c1 k < getChannel c0 k →
          getChannel (lutEntry (base + d2)) k <
            getChannel (lutEntry (base + d1)) k) ∧
        (getChannel c0 k = getChannel c1 k →
          getChannel (lutEntry (base + d1)) k =
            getChannel (lutEntry (base + d2)) k)) ∧
      ∀ d, d ≤ n →
        min (getChannel c0 k) (getChannel c1 k) ≤
          getChannel (lutEntry (base + d)) k ∧
        getChannel (lutEntry (base + d)) k ≤
          max (getChannel c0 k) (getChannel c1 k) := by
  intro k hk d1 d2 h12 h2n
  refine ⟨⟨fun hab => ?_, fun hba => ?_, fun heq => ?_⟩, fun d hd => ?_⟩
  · exact lift_lt (fun x => getChannel (lutEntry (base + x)) k) n
      (fun i hi => (hstep k hk i hi).1 hab) d1 d2 h12 h2n
  · exact lift_gt (fun x => getChannel (lutEntry (base + x)) k) n
      (fun i hi => (hstep k hk i hi).2.1 hba) d1 d2 h12 h2n
  · have e1 : getChannel (lutEntry (base + d1)) k =
        getChannel (lutEntry (base + 0)) k :=
      lift_eq (fun x => getChannel (lutEntry (base + x)) k) n
        (fun i hi => (hstep k hk i hi).2.2 heq) d1 (by omega)
    have e2 : getChannel (lutEntry (base + d2)) k =
        getChannel (lutEntry (base + 0)) k :=
      lift_eq (fun x => getChannel (lutEntry (base + x)) k) n
        (fun i hi => (hstep k hk i hi).2.2 heq) d2 h2n
    rw [e1, e2]
  · rcases Nat.lt_trichotomy (getChannel c0 k) (getChannel c1 k) with hab | hab | hab
    · have hlo : getChannel (lutEntry base) k ≤
          getChannel (lutEntry (base + d)) k :=
        lift_le (fun x => getChannel (lutEntry (base + x)) k) n
          (fun i hi => (hstep k hk i hi).1 hab) 0 d (Nat.zero_le d) hd
      have hhi : getChannel (lutEntry (base + d)) k ≤
          getChannel (lutEntry (base + n)) k :=
        lift_le (fun x => getChannel (lutEntry (base + x)) k) n
          (fun i hi => (hstep k hk i hi).1 hab) d n hd (Nat.le_refl n)
      rw [h0] at hlo
      rw [hn] at hhi
      omega
    · have he : getChannel (lutEntry (base + d)) k =
          getChannel (lutEntry (base + 0)) k :=
        lift_eq (fun x => getChannel (lutEntry (base + x)) k) n
          (fun i hi => (hstep k hk i hi).2.2 hab) d hd
      rw [show base + 0 = base from rfl, h0] at he
      omega
    · have hlo : getChannel (lutEntry (base + n)) k ≤
          getChannel (lutEntry (base + d)) k :=
        lift_ge (fun x => getChannel (lutEntry (base + x)) k) n
          (fun i hi => (hstep k hk i hi).2.1 hab) d n hd (Nat.le_refl n)
      have hhi : getChannel (lutEntry (base + d)) k ≤
          getChannel (lutEntry base) k :=
        lift_ge (fun x => getChannel (lutEntry (base + x)) k) n
          (fun i hi => (hstep k hk i hi).2.1 hab) 0 d (Nat.zero_le d) hd
      rw [hn] at hlo
      rw [h0] at hhi
      omega

end DepthFrames

namespace DepthFrames

set_option maxRecDepth 100000 in
/-- Adjacent-step behavior of every channel on the first segment. -/
theorem seg0_step : ∀ k, k < 3 → ∀ i, i < 64 →
    (getChannel (0, 0, 128) k < getChannel (0, 128, 255) k →
      getChannel (lutEntry (0 + i)) k < getChannel (lutEntry (0 + (i + 1))) k) ∧
    (getChannel (0, 128, 255) k < getChannel (0, 0, 128) k →
      getChannel (lutEntry (0 + (i + 1))) k < getChannel (lutEntry (0 + i)) k) ∧
    (getChannel (0, 0, 128) k = getChannel (0, 128, 255) k →
      getChannel (lutEntry (0 + i)) k = getChannel (lutEntry (0 + (i + 1))) k) := by
  simp only [lutEntry, colormapLUT_eq]
  decide

set_option maxRecDepth 100000 in
/-- Adjacent-step behavior of every channel on the second segment. -/
theorem seg1_step : ∀ k, k < 3 → ∀ i, i < 64 →
    (getChannel (0, 128, 255) k < getChannel (0, 255, 128) k →
      getChannel (lutEntry (64 + i)) k < getChannel (lutEntry (64 + (i + 1))) k) ∧
    (getChannel (0, 255, 128) k < getChannel (0, 128, 255) k →
      getChannel (lutEntry (64 + (i + 1))) k < getChannel (lutEntry (64 + i)) k) ∧
    (getChannel (0, 128, 255) k = getChannel (0, 255, 128) k →
      getChannel (lutEntry (64 + i)) k = getChannel (lutEntry (64 + (i + 1))) k) := by
  simp only [lutEntry, colormapLUT_eq]
  decide

set_option maxRecDepth 100000 in
/-- Adjacent-step behavior of every channel on the third segment. -/
theorem seg2_step : ∀ k, k < 3 → ∀ i, i < 64 →
    (getChannel (0, 255, 128) k < getChannel (255, 255, 0) k →
      getChannel (lutEntry (128 + i)) k < getChannel (lutEntry (128 + (i + 1))) k) ∧
    (getChannel (255, 255, 0) k < getChannel (0, 255, 128) k →
      getChannel (lutEntry (128 + (i + 1))) k < getChannel (lutEntry (128 + i)) k) ∧
    (getChannel (0, 255, 128) k = getChannel (255, 255, 0) k →
      getChannel (lutEntry (128 + i)) k = getChannel (lutEntry (128 + (i + 1))) k) := by
  simp only [lutEntry, colormapLUT_eq]
  decide

set_option maxRecDepth 100000 in
/-- Adjacent-step behavior of every channel on the fourth segment. -/
theorem seg3_step : ∀ k, k < 3 → ∀ i, i < 63 →
    (getChannel (255, 255, 0) k < getChannel (255, 0, 0) k →
      getChannel (lutEntry (192 + i)) k < getChannel (lutEntry (192 + (i + 1))) k) ∧
    (getChannel (255, 0, 0) k < getChannel (255, 255, 0) k →
      getChannel (lutEntry (192 + (i + 1))) k < getChannel (lutEntry (192 + i)) k) ∧
    (getChannel (255, 255, 0) k = getChannel (255, 0, 0) k →
      getChannel (lutEntry (192 + i)) k = getChannel (lutEntry (192 + (i + 1))) k) := by
  simp only [lutEntry, colormapLUT_eq]
  decide

end DepthFrames

namespace DepthFrames

/-- C4 (amended): for every adjacent pair of color stops and every channel, the
table follows the direction of the two stops across the segment — strictly
monotone when the stops' channel values differ, constant when they are equal —
and never leaves the closed interval spanned by the two endpoint values (no
overshoot).  Strictness for *every* channel, as the claim literally states it,
is refuted by `C4_counterexample`. -/
theorem C4_segment_trend :
    ∀ j, j + 1 < COLOR_STOPS.length → ∀ k, k < 3 → ∀ d1 d2, d1 < d2 →
      d2 ≤ (stopAt (j + 1)).1 - (stopAt j).1 →
      ((getChannel (stopAt j).2 k < getChannel (stopAt (j + 1)).2 k →
          getChannel (lutEntry ((stopAt j).1 + d1)) k <
            getChannel (lutEntry ((stopAt j).1 + d2)) k) ∧
        (getChannel (stopAt (j + 1)).2 k < getChannel (stopAt j).2 k →
          getChannel (lutEntry ((stopAt j).1 + d2)) k <
            getChannel (lutEntry ((stopAt j).1 + d1)) k) ∧
        (getChannel (stopAt j).2 k = getChannel (stopAt (j + 1)).2 k →
          getChannel (lutEntry ((stopAt j).1 + d1)) k =
            getChannel (lutEntry ((stopAt j).1 + d2)) k)) ∧
      ∀ d, d ≤ (stopAt (j + 1)).1 - (stopAt j).1 →
        min (getChannel (stopAt j).2 k) (getChannel (stopAt (j + 1)).2 k) ≤
          getChannel (lutEntry ((stopAt j).1 + d)) k ∧
        getChannel (lutEntry ((stopAt j).1 + d)) k ≤
          max (getChannel (stopAt j).2 k) (getChannel (stopAt (j + 1)).2 k) := by
  intro j hj
  have h5 : COLOR_STOPS.length = 5 := rfl
  have hj4 : j < 4 := by omega
  interval_cases j
  · exact segmentBehavior 0 64 (0, 0, 128) (0, 128, 255)
      lutEntry_zero lutEntry_64 seg0_step
  · exact segmentBehavior 64 64 (0, 128, 255) (0, 255, 128)
      lutEntry_64 lutEntry_128 seg1_step
  · exact segmentBehavior 128 64 (0, 255, 128) (255, 255, 0)
      lutEntry_128 lutEntry_192 seg2_step
  · exact segmentBehavior 192 63 (255, 255, 0) (255, 0, 0)
      lutEntry_192 lutEntry_255 seg3_step

/-- C4 witness: on the first segment the green channel of the stops increases
(0 < 128), and accordingly entry 1 is strictly below entry 2 there. -/
theorem C4_witness :
    0 + 1 < COLOR_STOPS.length ∧ 1 < 3 ∧ 1 < 2 ∧
    2 ≤ (stopAt 1).1 - (stopAt 0).1 ∧
    getChannel (stopAt 0).2 1 < getChannel (stopAt 1).2 1 ∧
    getChannel (lutEntry 1) 1 < getChannel (lutEntry 2) 1 :=
  ⟨by decide, by decide, by decide, by decide, by decide,
    (C4_segment_trend 0 (by decide) 1 (by decide) 1 2 (by decide)
      (by decide)).1.1 (by decide)⟩

set_option maxRecDepth 4000 in
/-- C4 counterexample: the claim as stated demands a *strict* monotone trend on
every channel of every segment, but on the first segment the red channel of
both stops is 0 and the table is constant there: entries 0 and 1 coincide on
that channel, so no strict trend exists. -/
theorem C4_counterexample :
    getChannel (stopAt 0).2 0 = 0 ∧ getChannel (stopAt 1).2 0 = 0 ∧
    getChannel (lutEntry ((stopAt 0).1 + 0)) 0 =
      getChannel (lutEntry ((stopAt 0).1 + 1)) 0 ∧
    ¬ getChannel (lutEntry ((stopAt 0).1 + 0)) 0 <
        getChannel (lutEntry ((stopAt 0).1 + 1)) 0 ∧
    ¬ getChannel (lutEntry ((stopAt 0).1 + 1)) 0 <
        getChannel (lutEntry ((stopAt 0).1 + 0)) 0 := by
  simp only [lutEntry, colormapLUT_eq]
  decide

end DepthFrames

namespace DepthFrames

set_option maxRecDepth 100000 in
/-- C3 (amended): for every adjacent pair of color stops and every intensity in
their inclusive range, each channel of the table equals the linear
interpolation between the stops' channel values *truncated* (floored) to an
integer — not rounded — and lies within the byte range.  Rounding, as the
claim literally states it, is refuted by `C3_counterexample`. -/
theorem C3_lut_values :
    ∀ j, j + 1 < COLOR_STOPS.length →
    ∀ i, i ≤ (stopAt (j + 1)).1 - (stopAt j).1 → ∀ k, k < 3 →
      (getChannel (lutEntry ((stopAt j).1 + i)) k : ℤ) =
        floorInterp (getChannel (stopAt j).2 k) (getChannel (stopAt (j + 1)).2 k)
          ((stopAt (j + 1)).1 - (stopAt j).1) i ∧
      getChannel (lutEntry ((stopAt j).1 + i)) k ≤ 255 := by
  have h64 : ∀ a b i2 : Nat, floorInterp a b 64 i2 =
      ((a : ℤ) * ((64 : ℕ) : ℤ) + (i2 : ℤ) * ((b : ℤ) - a)) / ((64 : ℕ) : ℤ) :=
    fun a b i2 => floorInterp_eq_div a b 64 i2 (by norm_num)
  have h63 : ∀ a b i2 : Nat, floorInterp a b 63 i2 =
      ((a : ℤ) * ((63 : ℕ) : ℤ) + (i2 : ℤ) * ((b : ℤ) - a)) / ((63 : ℕ) : ℤ) :=
    fun a b i2 => floorInterp_eq_div a b 63 i2 (by norm_num)
  intro j hj
  have h5 : COLOR_STOPS.length = 5 := rfl
  have hj4 : j < 4 := by omega
  interval_cases j
  · show ∀ i, i ≤ 64 → ∀ k, k < 3 →
        (getChannel (lutEntry (0 + i)) k : ℤ) =
          floorInterp (getChannel (0, 0, 128) k) (getChannel (0, 128, 255) k) 64 i ∧
        getChannel (lutEntry (0 + i)) k ≤ 255
    simp only [h64, lutEntry, colormapLUT_eq]
    decide
  · show ∀ i, i ≤ 64 → ∀ k, k < 3 →
        (getChannel (lutEntry (64 + i)) k : ℤ) =
          floorInterp (getChannel (0, 128, 255) k) (getChannel (0, 255, 128) k) 64 i ∧
        getChannel (lutEntry (64 + i)) k ≤ 255
    simp only [h64, lutEntry, colormapLUT_eq]
    decide
  · show ∀ i, i ≤ 64 → ∀ k, k < 3 →
        (getChannel (lutEntry (128 + i)) k : ℤ) =
          floorInterp (getChannel (0, 255, 128) k) (getChannel (255, 255, 0) k) 64 i ∧
        getChannel (lutEntry (128 + i)) k ≤ 255
    simp only [h64, lutEntry, colormapLUT_eq]
    decide
  · show ∀ i, i ≤ 63 → ∀ k, k < 3 →
        (getChannel (lutEntry (192 + i)) k : ℤ) =
          floorInterp (getChannel (255, 255, 0) k) (getChannel (255, 0, 0) k) 63 i ∧
        getChannel (lutEntry (192 + i)) k ≤ 255
    simp only [h63, lutEntry, colormapLUT_eq]
    decide

/-- C3 witness: at intensity 1 on the first segment, the blue channel of the
table equals the truncated interpolation and is a byte. -/
theorem C3_witness :
    0 + 1 < COLOR_STOPS.length ∧ 1 ≤ (stopAt 1).1 - (stopAt 0).1 ∧ 2 < 3 ∧
    (getChannel (lutEntry 1) 2 : ℤ) =
      floorInterp (getChannel (stopAt 0).2 2) (getChannel (stopAt 1).2 2)
        ((stopAt 1).1 - (stopAt 0).1) 1 ∧
    getChannel (lutEntry 1) 2 ≤ 255 :=
  ⟨by decide, by decide, by decide,
    (C3_lut_values 0 (by decide) 1 (by decide) 2 (by decide)).1,
    (C3_lut_values 0 (by decide) 1 (by decide) 2 (by decide)).2⟩

set_option maxRecDepth 4000 in
/-- C3 counterexample: at intensity 1 (first segment, blue channel: stops 128
and 255 across 64 steps) the table holds the truncated value 129, while the
rounded interpolation the claim specifies equals 130. -/
theorem C3_counterexample :
    getChannel (lutEntry ((stopAt 0).1 + 1)) 2 = 129 ∧
    roundInterp (getChannel (stopAt 0).2 2) (getChannel (stopAt 1).2 2)
      ((stopAt 1).1 - (stopAt 0).1) 1 = 130 ∧
    (getChannel (lutEntry ((stopAt 0).1 + 1)) 2 : ℤ) ≠
      roundInterp (getChannel (stopAt 0).2 2) (getChannel (stopAt 1).2 2)
        ((stopAt 1).1 - (stopAt 0).1) 1 := by
  have hlut : getChannel (lutEntry ((stopAt 0).1 + 1)) 2 = 129 := by
    simp only [lutEntry, colormapLUT_eq]
    decide
  have hround : roundInterp (getChannel (stopAt 0).2 2) (getChannel (stopAt 1).2 2)
      ((stopAt 1).1 - (stopAt 0).1) 1 = 130 := by
    show roundInterp 128 255 64 1 = 130
    simp only [roundInterp, round_eq]
    rw [Int.floor_eq_iff]
    constructor
    · push_cast
      norm_num
    · push_cast
      norm_num
  exact ⟨hlut, hround, by rw [hlut, hround]; decide⟩

end DepthFrames

namespace DepthFrames

/-- C1: `process_row_to_png` clamps every raw sample into [0, 255] with
saturation — negatives become 0, values above 255 become 255, never wrapping —
and truncates in-range samples to an 8-bit integer; in particular −10 maps to 0
and 300 to 255, and every intensity subsequently fed to the colorizer (the
output of the resample stage applied to the clamped row) is at most 255. -/
theorem C1_clamp_saturation :
    (∀ v : ℚ, v < 0 → clampU8 v = 0) ∧
    (∀ v : ℚ, 255 < v → clampU8 v = 255) ∧
    (∀ v : ℚ, 0 ≤ v → v ≤ 255 → (clampU8 v : ℤ) = ⌊v⌋) ∧
    clampU8 (-10) = 0 ∧ clampU8 300 = 255 ∧
    (∀ (w : Nat → Nat → ℚ) (row : List ℚ) (tw : Nat) (out : List Nat),
      resize_grayscale_row w (row.map clampU8) tw = .ok out →
      ∀ x ∈ out, x ≤ 255) := by
  refine ⟨?_, ?_, ?_, ?_, ?_, ?_⟩
  · intro v hv
    exact clampU8_of_nonpos (le_of_lt hv)
  · intro v hv
    exact clampU8_of_ge (le_of_lt hv)
  · intro v h0 h255
    rw [clampU8]
    rcases eq_or_lt_of_le h0 with rfl | hpos
    · rw [if_pos (le_refl _)]
      norm_num
    · rcases eq_or_lt_of_le h255 with rfl | hlt
      · rw [if_neg (by linarith), if_pos (le_refl _)]
        norm_num
      · rw [if_neg (by linarith), if_neg (by linarith)]
        exact Int.toNat_of_nonneg (Int.floor_nonneg.mpr h0)
  · exact clampU8_of_nonpos (by norm_num)
  · exact clampU8_of_ge (by norm_num)
  · intro w row tw out h x hx
    exact resize_grayscale_row_le w (row.map clampU8) tw out h x hx

set_option maxRecDepth 8000 in
/-- C1 witness: the clamp facts at −10, 300 and 128, and membership of the
single resampled value of an empty clamped row. -/
theorem C1_witness :
    (-10 : ℚ) < 0 ∧ clampU8 (-10) = 0 ∧
    (255 : ℚ) < 300 ∧ clampU8 300 = 255 ∧
    (0 : ℚ) ≤ 128 ∧ (128 : ℚ) ≤ 255 ∧ (clampU8 128 : ℤ) = ⌊(128 : ℚ)⌋ ∧
    (0 : Nat) ≤ 255 := by
  refine ⟨by norm_num, C1_clamp_saturation.1 (-10) (by norm_num),
    by norm_num, C1_clamp_saturation.2.1 300 (by norm_num),
    by norm_num, by norm_num,
    C1_clamp_saturation.2.2.1 128 (by norm_num) (by norm_num), ?_⟩
  exact C1_clamp_saturation.2.2.2.2.2 (fun _ _ => 1) [] 1 [0]
    (by simp [resize_grayscale_row, imageResize, quantizeU8]) 0 (by simp)

/-- C2: a row whose length differs from `source_width` is rejected with a
per-row error carrying both the expected and the actual length, and no image is
produced for it. -/
theorem C2_length_mismatch :
    ∀ (w : Nat → Nat → ℚ) (row : List ℚ) (sw tw : Nat), row.length ≠ sw →
      process_row_to_png w row sw tw =
        .error ("Expected " ++ toString sw ++ " pixel values, got " ++
          toString row.length) := by
  intro w row sw tw h
  simp only [process_row_to_png, List.length_map]
  rw [if_pos h]

set_option maxRecDepth 20000 in
/-- C2 witness: a row of length 199 against `source_width` 200 yields exactly
the mismatch error naming 200 and 199, and no image. -/
theorem C2_witness :
    (List.replicate 199 (0 : ℚ)).length ≠ 200 ∧
    process_row_to_png (fun _ _ => 1) (List.replicate 199 (0 : ℚ)) 200 150 =
      .error "Expected 200 pixel values, got 199" := by
  constructor
  · simp
  · rw [C2_length_mismatch (fun _ _ => 1) (List.replicate 199 (0 : ℚ)) 200 150
      (by simp)]
    rfl

/-- C5: the table built from the compiled-in five-stop gradient starts at dark
blue and ends at red. -/
theorem C5_lut_boundaries :
    lutEntry 0 = (0, 0, 128) ∧ lutEntry 255 = (255, 0, 0) :=
  ⟨lutEntry_zero, lutEntry_255⟩

/-- C6: for every positive target width the resampler succeeds and returns
exactly `target_width` samples, whatever the input row's length. -/
theorem C6_resample_length :
    ∀ (w : Nat → Nat → ℚ) (row : List Nat) (tw : Nat), 0 < tw →
      ∃ out, resize_grayscale_row w row tw = .ok out ∧ out.length = tw := by
  intro w row tw htw
  refine ⟨_, resize_grayscale_row_pos w row tw (Nat.pos_iff_ne_zero.mp htw), ?_⟩
  simp

/-- C6 witness: resampling a 200-sample row to width 150 yields 150 samples. -/
theorem C6_witness :
    0 < 150 ∧
    ∃ out, resize_grayscale_row (fun _ _ => 1) (List.replicate 200 128) 150 =
      .ok out ∧ out.length = 150 :=
  ⟨by decide,
    C6_resample_length (fun _ _ => 1) (List.replicate 200 128) 150 (by decide)⟩

set_option maxRecDepth 20000 in
/-- C7: a row of 200 identical samples equal to 128 produces, for every
positive target width and every normalized filter, exactly `target_width`
copies of `lut[128]` (resampling a constant signal does not perturb it), and
`lut[128]` is green.  (A target width of 0 never produces an image at all: the
resize call raises its input error per-row, see the C9 theorems.) -/
theorem C7_uniform_row (w : Nat → Nat → ℚ) (tw : Nat) (htw : 0 < tw)
    (hw : ∀ j, ∑ i in Finset.range 200, w j i = 1) :
    process_row_to_png w (List.replicate 200 (128 : ℚ)) 200 tw =
      .ok (encode_to_png (List.replicate tw (lutEntry 128)), tw, 1) ∧
    lutEntry 128 = (0, 255, 128) := by
  constructor
  · have hclamp : (List.replicate 200 (128 : ℚ)).map clampU8 =
        List.replicate 200 (128 : Nat) := by
      rw [List.map_replicate]
      have hc : ((128 : ℕ) : ℚ) = (128 : ℚ) := by norm_num
      rw [← hc, clampU8_natCast 128 (by norm_num)]
    have hresize : resize_grayscale_row w (List.replicate 200 (128 : Nat)) tw =
        .ok (List.replicate tw (128 : Nat)) := by
      rw [resize_grayscale_row_eq_ok w _ tw _ (by
          rw [List.map_replicate]
          exact imageResize_const w tw 200 ((128 : ℕ) : ℚ)
            (Nat.pos_iff_ne_zero.mp htw) hw),
        List.map_replicate, quantizeU8_natCast 128 (by norm_num)]
    have hcolor : apply_colormap (List.replicate tw (128 : Nat)) =
        some (List.replicate tw (lutEntry 128)) := by
      rw [apply_colormap_eq_some _ (fun v hv => by
        rcases List.eq_of_mem_replicate hv with rfl
        norm_num), List.map_replicate]
    simp only [process_row_to_png, hclamp]
    rw [if_neg (by simp)]
    simp only [hresize, hcolor]
  · exact lutEntry_128

/-- C7 witness: with the uniform normalized filter and target width 3, the
uniform 128-row yields three copies of `lut[128]` = green. -/
theorem C7_witness :
    0 < 3 ∧
    (∀ j, ∑ i in Finset.range 200,
      (fun (_ : Nat) (_ : Nat) => (1 : ℚ) / 200) j i = 1) ∧
    process_row_to_png (fun (_ : Nat) (_ : Nat) => (1 : ℚ) / 200)
        (List.replicate 200 (128 : ℚ)) 200 3 =
      .ok (encode_to_png (List.replicate 3 (lutEntry 128)), 3, 1) ∧
    lutEntry 128 = (0, 255, 128) := by
  have hw : ∀ j, ∑ i in Finset.range 200,
      (fun (_ : Nat) (_ : Nat) => (1 : ℚ) / 200) j i = 1 := by
    intro j
    rw [Finset.sum_const, Finset.card_range, nsmul_eq_mul]
    norm_num
  exact ⟨by decide, hw, C7_uniform_row _ 3 (by decide) hw⟩

end DepthFrames

namespace DepthFrames

/-- C8: determinism — building the table twice from equal stop lists yields
identical tables, and encoding equal RGB content twice yields identical bytes;
both stages are pure functions of their inputs and read no other state. -/
theorem C8_determinism :
    (∀ s1 s2 : List (Nat × RGB), s1 = s2 → buildLut s1 = buildLut s2) ∧
    (∀ r1 r2 : List RGB, r1 = r2 → encode_to_png r1 = encode_to_png r2) := by
  constructor
  · intro s1 s2 h
    rw [h]
  · intro r1 r2 h
    rw [h]

/-- C8 witness: two builds from the compiled-in stops coincide, as do two
encodings of a one-pixel dark-blue raster. -/
theorem C8_witness :
    buildLut COLOR_STOPS = buildLut COLOR_STOPS ∧
    encode_to_png [(0, 0, 128)] = encode_to_png [(0, 0, 128)] :=
  ⟨C8_determinism.1 COLOR_STOPS COLOR_STOPS rfl,
    C8_determinism.2 [(0, 0, 128)] [(0, 0, 128)] rfl⟩

/-- C9 (amended): no width validation and no ConfigurationError exist; a
non-positive target width is not rejected at LUT-build or
pipeline-construction time.  Width failures surface per-row instead: with
target width 0 a valid-length row passes the per-row clamp and length check
and the per-row resize call raises its input error (Pillow's
`ValueError("height and width must be > 0")`); for every positive target
width the row completes per-row with a success result.  Neither outcome is a
startup-time rejection. -/
theorem C9_no_width_validation :
    ∀ (w : Nat → Nat → ℚ) (row : List ℚ) (tw : Nat), row.length = 200 →
      (tw = 0 → process_row_to_png w row 200 tw =
        .error "height and width must be > 0") ∧
      (0 < tw → ∃ bytes, process_row_to_png w row 200 tw =
        .ok (bytes, tw, 1)) := by
  intro w row tw h
  constructor
  · rintro rfl
    simp only [process_row_to_png, List.length_map]
    rw [if_neg (by simp [h])]
    simp only [show ∀ g : List Nat, resize_grayscale_row w g 0 =
      .error "height and width must be > 0" from fun g => rfl]
  · intro htw
    obtain ⟨out, hok⟩ :
        ∃ out, resize_grayscale_row w (row.map clampU8) tw = .ok out :=
      ⟨_, resize_grayscale_row_pos w (row.map clampU8) tw
        (Nat.pos_iff_ne_zero.mp htw)⟩
    have hcolor := apply_colormap_eq_some out
      (fun v hv => lt_of_le_of_lt
        (resize_grayscale_row_le w (row.map clampU8) tw out hok v hv)
        (by norm_num))
    refine ⟨encode_to_png (out.map lutEntry), ?_⟩
    simp only [process_row_to_png, List.length_map]
    rw [if_neg (by simp [h])]
    simp only [hok, hcolor]

/-- C9 witness: a valid 200-sample row gives the per-row resize input error at
target width 0 and a per-row success at target width 150. -/
theorem C9_witness :
    (List.replicate 200 (0 : ℚ)).length = 200 ∧
    process_row_to_png (fun _ _ => 1) (List.replicate 200 (0 : ℚ)) 200 0 =
      .error "height and width must be > 0" ∧
    ∃ bytes, process_row_to_png (fun _ _ => 1) (List.replicate 200 (0 : ℚ))
      200 150 = .ok (bytes, 150, 1) :=
  ⟨List.length_replicate 200 0,
    (C9_no_width_validation (fun _ _ => 1) (List.replicate 200 (0 : ℚ)) 0
      (List.length_replicate 200 0)).1 rfl,
    (C9_no_width_validation (fun _ _ => 1) (List.replicate 200 (0 : ℚ)) 150
      (List.length_replicate 200 0)).2 (by decide)⟩

set_option maxRecDepth 20000 in
/-- C9 counterexample: the claim says a zero target width raises a
ConfigurationError at LUT-build or pipeline-construction time, never per-row,
rejected before any row is resampled.  Instead a valid 200-sample row with
target width 0 is processed per-row — the clamp and the length check both run
on the row — and the failure is the resize call's own per-row input error, not
any configuration-time rejection. -/
theorem C9_counterexample :
    process_row_to_png (fun _ _ => 1) (List.replicate 200 (0 : ℚ)) 200 0 =
      .error "height and width must be > 0" := by
  have hclamp : (List.replicate 200 (0 : ℚ)).map clampU8 =
      List.replicate 200 (0 : Nat) := by
    rw [List.map_replicate, clampU8_of_nonpos (le_refl 0)]
  simp only [process_row_to_png, hclamp]
  rw [if_neg (by simp)]
  simp only [show resize_grayscale_row (fun _ _ => 1)
    (List.replicate 200 (0 : Nat)) 0 =
      .error "height and width must be > 0" from rfl]

set_option maxRecDepth 20000 in
/-- C10: the colorizer is total on byte-valued rows — the table has exactly 256
rows, every 8-bit intensity indexes in bounds, the lookup never fails, and the
output pairs each input sample with its table row. -/
theorem C10_colormap_total :
    COLORMAP_LUT.size = 256 ∧
    ∀ g : List Nat, (∀ v ∈ g, v < 256) →
      ∃ out, apply_colormap g = some out ∧ out.length = g.length ∧
        ∀ i, i < g.length →
          out.getD i (0, 0, 0) = COLORMAP_LUT.getD (g.getD i 0) (0, 0, 0) := by
  refine ⟨colormapLUT_size, ?_⟩
  intro g hg
  refine ⟨g.map lutEntry, apply_colormap_eq_some g hg, by simp, ?_⟩
  intro i hi
  have hi2 : i < (g.map lutEntry).length := by
    rw [List.length_map]
    exact hi
  have h1 : (g.map lutEntry).getD i (0, 0, 0) = lutEntry (g.getD i 0) := by
    rw [List.getD_eq_getElem (g.map lutEntry) (0, 0, 0) hi2,
      List.getElem_map, List.getD_eq_getElem g 0 hi]
  rw [h1, lutEntry]

/-- C10 witness: the table size, and the lookup on the three-sample row
[0, 128, 255]. -/
theorem C10_witness :
    COLORMAP_LUT.size = 256 ∧
    (∀ v ∈ [0, 128, 255], v < 256) ∧
    ∃ out, apply_colormap [0, 128, 255] = some out ∧ out.length = 3 ∧
      ∀ i, i < 3 →
        out.getD i (0, 0, 0) =
          COLORMAP_LUT.getD ([0, 128, 255].getD i 0) (0, 0, 0) := by
  refine ⟨C10_colormap_total.1, by decide, ?_⟩
  have h := C10_colormap_total.2 [0, 128, 255] (by decide)
  simpa using h

end DepthFrames
